import Mathlib

/-!
Shallow embedding of `parroter.py` (EM Slack Party Parroter, v0.6).

Python dicts for emoji entries are modelled as records of optional fields;
a missing dict key is `none`, and a `KeyError` / `IndexError` / uncaught
`requests.HTTPError` is modelled by the whole operation returning `none`
(or `Except.error`).  Network responses are modelled by explicit records of
the observable outcomes the code branches on.
-/

namespace Parroter

/-- An emoji entry as the script sees it: a JSON object from `parrots.json`
or `guests.json`, possibly augmented in place by `get_emoji_list`.
Field order and names follow the Python dict keys. -/
structure Emoji where
  name : Option String := none
  hd : Option String := none
  gif : Option String := none
  is_guest : Option Bool := none
  use_hd : Option Bool := none
  slug : Option String := none
deriving Repr, DecidableEq

/-- Split a character list at every separator character, keeping empty
pieces, exactly as Python `re.split` on a single-character alternative
does. -/
def splitChars (p : Char → Bool) : List Char → List (List Char)
  | [] => [[]]
  | c :: cs =>
    if p c then [] :: splitChars p cs
    else
      match splitChars p cs with
      | [] => [[c]]
      | w :: ws => (c :: w) :: ws

/-- Python-style split of a string on a character class. -/
def pySplit (p : Char → Bool) (s : String) : List String :=
  (splitChars p s.data).map (fun l => String.mk l)

/-- Python `re.split(r'\/|\.', s)`: split on every `/` or `.` character,
keeping empty pieces. -/
def reSplitSlashDot (s : String) : List String :=
  pySplit (fun c => c = '/' || c = '.') s

/-- Python `re.split(r'\.', s)`: split on every `.` character. -/
def reSplitDot (s : String) : List String :=
  pySplit (fun c => c = '.') s

/-- Python `str.lower()` (ASCII case folding suffices for this program). -/
def pyLower (s : String) : String := String.mk (s.data.map Char.toLower)

/-- Python `str.strip()`: drop leading and trailing whitespace. -/
def pyStrip (s : String) : String :=
  String.mk (((s.data.dropWhile Char.isWhitespace).reverse.dropWhile
    Char.isWhitespace).reverse)

/-- The per-entry body of the loop in `get_emoji_list` (parroter.py lines
592-604): set `is_guest`, then prefer the `hd` reference (deriving the slug
as element 1 of the `/`-or-`.` split) and otherwise fall back to `gif`
(slug = element 0 of the `.` split).  Python raises `IndexError` when the
`hd` split has fewer than two pieces; that is the `none` result.  An entry
with neither key is left untouched apart from `is_guest` (the crash, if
any, happens later at the `emoji['slug']` lookup). -/
def enrich_emoji (g : Bool) (emoji : Emoji) : Option Emoji :=
  match emoji.hd with
  | some h =>
    match (reSplitSlashDot h)[1]? with
    | some s =>
      some { emoji with is_guest := some g, use_hd := some true, slug := some s }
    | none => none
  | none =>
    match emoji.gif with
    | some gf =>
      match (reSplitDot gf)[0]? with
      | some s =>
        some { emoji with is_guest := some g, use_hd := some false, slug := some s }
      | none => none
    | none => some { emoji with is_guest := some g }

/-- A catalog entry the script can process without raising: it has an `hd`
reference whose split yields a slug at index 1, or no `hd` and a `gif`
reference. -/
def goodEntry (e : Emoji) : Bool :=
  match e.hd with
  | some h => decide (2 ≤ (reSplitSlashDot h).length)
  | none =>
    match e.gif with
    | some gf => decide (1 ≤ (reSplitDot gf).length)
    | none => false

/-- `get_emoji_list` (parroter.py lines 577-618).  Mutates each entry in
place (first component: the catalog after the loop), collects the entries
whose slug is not already installed (second component; skipped entirely in
`list_available` mode, where the loop `continue`s after printing), and
returns the lines printed to stdout (third component).  A `KeyError` or
`IndexError` anywhere makes the whole call `none`. -/
def get_emoji_list (list_available : Bool) (current_emoji : List String)
    (emojis : List Emoji) (g : Bool) :
    Option (List Emoji × List Emoji × List String) :=
  match emojis with
  | [] => some ([], [], [])
  | e :: rest =>
    match enrich_emoji g e with
    | none => none
    | some e' =>
      match e'.slug with
      | none => none
      | some s =>
        match get_emoji_list list_available current_emoji rest g with
        | none => none
        | some (ms, sel, out) =>
          if list_available then
            some (e' :: ms, sel, (":" ++ s ++ ":") :: out)
          else if current_emoji.contains s then
            some (e' :: ms, sel, out)
          else
            some (e' :: ms, e' :: sel, out)

/-- `get_parrots_to_add` (parroter.py lines 620-639): parrot diff first,
then (when a guest list was passed) the guest diff, concatenated in that
order. -/
def get_parrots_to_add (list_available : Bool) (current_emoji : List String)
    (parrots : List Emoji) (guests : Option (List Emoji)) :
    Option (List Emoji) :=
  match get_emoji_list list_available current_emoji parrots false with
  | none => none
  | some (_, ps, _) =>
    match guests with
    | none => some (ps ++ [])
    | some gl =>
      match get_emoji_list list_available current_emoji gl true with
      | none => none
      | some (_, gs, _) => some (ps ++ gs)

/-- Spec-side filter condition: the enriched entry's slug is not installed. -/
def keepMissing (current_emoji : List String) (e : Emoji) : Bool :=
  match e.slug with
  | some s => !(decide (s ∈ current_emoji))
  | none => false

/-- Spec-side description of one catalog's diff (`computeMissing` on a
single set): enrich every entry, keep those whose slug is not installed,
in order. -/
def selectMissing (g : Bool) (current_emoji : List String)
    (l : List Emoji) : List Emoji :=
  (l.filterMap (enrich_emoji g)).filter (keepMissing current_emoji)

/-- Spec-side stdout of `list_available` mode: one `:slug:` line per entry. -/
def availableLines (g : Bool) (l : List Emoji) : List String :=
  l.filterMap (fun e =>
    ((enrich_emoji g e).bind Emoji.slug).map (fun s => ":" ++ s ++ ":"))

/-- Evaluation of `keepMissing` on an entry with a slug. -/
theorem keepMissing_some (c : List String) (e : Emoji) (s : String)
    (h : e.slug = some s) : keepMissing c e = !(decide (s ∈ c)) := by
  unfold keepMissing
  rw [h]

/-- A processable entry enriches successfully and carries a slug. -/
theorem enrich_of_good (g : Bool) (e : Emoji) (h : goodEntry e = true) :
    ∃ e' s, enrich_emoji g e = some e' ∧ e'.slug = some s := by
  unfold goodEntry at h
  unfold enrich_emoji
  match he : e.hd with
  | some href =>
    rw [he] at h
    have hlt : 1 < (reSplitSlashDot href).length := by
      simpa using of_decide_eq_true h
    rcases List.getElem?_eq_getElem hlt with hget
    simp only [he, hget]
    exact ⟨_, _, rfl, rfl⟩
  | none =>
    rw [he] at h
    match hg : e.gif with
    | some gf =>
      rw [hg] at h
      have hlt : 0 < (reSplitDot gf).length := by
        simpa using of_decide_eq_true h
      rcases List.getElem?_eq_getElem hlt with hget
      simp only [he, hg, hget]
      exact ⟨_, _, rfl, rfl⟩
    | none => rw [hg] at h; exact absurd h (by simp)

/-- On a catalog of processable entries, diff mode returns the enriched
catalog, the order-preserving filter of not-yet-installed entries, and no
stdout lines. -/
theorem get_emoji_list_diff (current_emoji : List String) (g : Bool)
    (l : List Emoji) (h : ∀ e ∈ l, goodEntry e = true) :
    get_emoji_list false current_emoji l g =
      some (l.filterMap (enrich_emoji g),
            selectMissing g current_emoji l, []) := by
  induction l with
  | nil => rfl
  | cons e rest ih =>
    have he : goodEntry e = true := h e (List.mem_cons_self e rest)
    have hrest : ∀ x ∈ rest, goodEntry x = true :=
      fun x hx => h x (List.mem_cons_of_mem e hx)
    obtain ⟨e', s, henr, hslug⟩ := enrich_of_good g e he
    unfold get_emoji_list
    by_cases hc : s ∈ current_emoji
    · simp [henr, hslug, ih hrest, hc, List.filterMap_cons, List.filter_cons,
        selectMissing, keepMissing_some current_emoji e' s hslug]
    · simp [henr, hslug, ih hrest, hc, List.filterMap_cons, List.filter_cons,
        selectMissing, keepMissing_some current_emoji e' s hslug]

/-- On a catalog of processable entries, `list_available` mode selects
nothing and prints one `:slug:` line per entry. -/
theorem get_emoji_list_la (current_emoji : List String) (g : Bool)
    (l : List Emoji) (h : ∀ e ∈ l, goodEntry e = true) :
    get_emoji_list true current_emoji l g =
      some (l.filterMap (enrich_emoji g), [], availableLines g l) := by
  induction l with
  | nil => rfl
  | cons e rest ih =>
    have he : goodEntry e = true := h e (List.mem_cons_self e rest)
    have hrest : ∀ x ∈ rest, goodEntry x = true :=
      fun x hx => h x (List.mem_cons_of_mem e hx)
    obtain ⟨e', s, henr, hslug⟩ := enrich_of_good g e he
    unfold get_emoji_list
    simp [henr, hslug, ih hrest, availableLines, List.filterMap_cons]

/-! ### Upload step (`add_parrot` / `add_parrots`, lines 664-749)

Each network interaction of one upload is summarised by the outcomes the
code branches on.  `raise_for_status()` on a non-2xx response raises an
uncaught `requests.HTTPError`, modelled as `Except.error`. -/

/-- The observable part of a Slack JSON API response: whether
`raise_for_status()` passes, the `ok` field, and the optional `error`
field. -/
structure SlackResponse where
  status_ok : Bool
  ok : Bool
  error : Option String := none
deriving Repr, DecidableEq

/-- The environment of one `add_parrot` call: outcome of the image
download, of the emoji-page fetch, and the `emoji.add` response. -/
structure ItemWorld where
  img_status_ok : Bool
  page_status_ok : Bool
  upload : SlackResponse
deriving Repr, DecidableEq

/-- `add_parrot` (lines 664-712).  Reads `use_hd`, the corresponding image
reference and `is_guest` from the entry dict (`KeyError` when absent),
fetches the image and the emoji page, posts the upload, and returns a
server-reported error string only when the response has `ok = false` AND
an `error` field; otherwise it returns `none` (success). -/
def add_parrot (w : ItemWorld) (parrot : Emoji) :
    Except String (Option String) :=
  match parrot.use_hd with
  | none => .error "KeyError: use_hd"
  | some u =>
    match (if u then parrot.hd else parrot.gif) with
    | none => .error "KeyError: image reference"
    | some _ =>
      match parrot.is_guest with
      | none => .error "KeyError: is_guest"
      | some _ =>
        if !w.img_status_ok then .error "HTTPError: image fetch"
        else if !w.page_status_ok then .error "HTTPError: emoji page"
        else if !w.upload.status_ok then .error "HTTPError: emoji.add"
        else if !w.upload.ok then
          match w.upload.error with
          | some err => .ok (some err)
          | none => .ok none
        else .ok none

/-- `add_parrots` (lines 714-749).  Sequentially uploads each entry,
pairing every entry with its network environment.  A returned error string
is printed to stderr and the loop continues; a raised exception aborts the
whole batch.  Result: (added entries, stdout lines, stderr lines). -/
def add_parrots :
    List (Emoji × ItemWorld) →
      Except String (List Emoji × List String × List String)
  | [] => .ok ([], [], [])
  | (p, w) :: rest =>
    match add_parrot w p with
    | .error m => .error m
    | .ok errOpt =>
      match p.slug with
      | none => .error "KeyError: slug"
      | some s =>
        match add_parrots rest with
        | .error m => .error m
        | .ok (added, out, errs) =>
          match errOpt with
          | some err =>
            .ok (added, out, ("+ Error adding " ++ s ++ ", " ++ err) :: errs)
          | none =>
            .ok (p :: added, ("+ Added :" ++ s ++ ":") :: out, errs)

/-! ### Session cache (`_load_cookie_jar`, lines 294-326) -/

/-- One cached cookie: its optional expiry instant (seconds). -/
structure Cookie where
  expires : Option Nat := none
deriving Repr, DecidableEq

/-- `_cookies_expired` (lines 254-292): the cache file is stale when it is
older than one hour (3600 s), or when any cookie that has an expiry has
passed it. -/
def cookies_expired (now mod_time : Nat) (cookies : List Cookie) : Bool :=
  (decide (3600 < now - mod_time)) ||
    cookies.any (fun c =>
      match c.expires with
      | none => false
      | some ex => decide (ex < now))

/-- `_load_cookie_jar` (lines 294-326).  `cache` is the parsed content of
the cookies file (`none` = `IOError`), `fresh` the cookies a new login
would produce.  Returns whether a fresh authentication was performed and
the cookies that end up in the session jar. -/
def load_cookie_jar (refresh : Bool) (team : String)
    (cache : Option (String × List Cookie)) (now mod_time : Nat)
    (fresh : List Cookie) : Bool × List Cookie :=
  let doRefresh :=
    if refresh then true
    else
      match cache with
      | none => true
      | some (cachedTeam, cookies) =>
        cookies.isEmpty || cookies_expired now mod_time cookies ||
          cachedTeam != team
  if doRefresh then (true, fresh)
  else (false, (cache.map Prod.snd).getD [])

/-! ### Report step (`report`, lines 831-879) -/

/-- Collect the slug of every added entry for the notification message;
Python `'{slug}'.format(**new)` raises `KeyError` when absent. -/
def slugsOf : List Emoji → Except String (List String)
  | [] => .ok []
  | p :: rest =>
    match p.slug with
    | none => .error "KeyError: slug"
    | some s =>
      match slugsOf rest with
      | .error m => .error m
      | .ok l => .ok (s :: l)

/-- `report` (lines 831-879).  Prints the success count; when a channel is
configured, posts the summary message.  `raise_for_status()` on a non-2xx
response raises; an `ok = false` JSON body is logged to stderr (reading
its `error` field, `KeyError` when absent).  Result: (stdout lines,
stderr lines). -/
def report (channel : Option String) (added : List Emoji)
    (resp : SlackResponse) : Except String (List String × List String) :=
  let out0 := ["Successfully added " ++ toString added.length ++
    " new parrots!"]
  match channel with
  | none => .ok (out0, [])
  | some _ =>
    match slugsOf added with
    | .error m => .error m
    | .ok _ =>
      if !resp.status_ok then .error "HTTPError: chat.postMessage"
      else if !resp.ok then
        match resp.error with
        | none => .error "KeyError: error"
        | some err =>
          .ok (out0, ["ERROR: Unable to send Slack message: " ++ err])
      else .ok (out0, [])

/-! ### Confirmation prompt (`yes_or_no`, lines 510-525) -/

/-- Outcome of the `yes_or_no` prompt loop over a finite stream of
replies. -/
inductive YNResult where
  | answer (b : Bool)
  | crash
  | exhausted
deriving Repr, DecidableEq

/-- `yes_or_no` (lines 510-525): lowercase then strip the reply; a reply
whose first character is `y` answers true, `n` answers false, anything
else re-prompts.  `reply[0]` on an empty reply raises `IndexError`
(`crash`).  `exhausted` models running out of the finite reply stream. -/
def yes_or_no : List String → YNResult
  | [] => .exhausted
  | r :: rest =>
    let reply := pyStrip (pyLower r)
    match reply.data with
    | [] => .crash
    | c :: _ =>
      if c = 'y' then .answer true
      else if c = 'n' then .answer false
      else yes_or_no rest

/-! ### Main flow (`parrot`, lines 751-829) -/

/-- The CLI flags `parrot` branches on. -/
structure Args where
  include_guests : Bool
  list_existing : Bool
  list_available : Bool
  list_new : Bool
  quiet : Bool
deriving Repr, DecidableEq

/-- Observable events of one run, in order. -/
inductive Event where
  | fetchParrotList
  | fetchGuestsList
  | fetchInstalled
  | print (line : String)
  | printErr (line : String)
  | promptYesNo
  | uploadItem (slug : String)
  | exitZero
deriving Repr, DecidableEq

/-- How the run ends. -/
inductive RunOutcome where
  | exited
  | crashed (msg : String)
  | finished (added : List Emoji)
deriving Repr, DecidableEq

/-- `parrot` (lines 751-829) as a trace semantics: fetch the parrot list,
optionally the guest list, then ALWAYS the installed list; handle
`list_existing`; print the banner; compute the diff (printing slugs in
`list_available` mode); exit in `list_available` mode; exit when nothing
is missing; print the findings; exit in `list_new` mode; prompt unless
`quiet`; upload.  `approved` is the answer the prompt would produce;
`worlds` the per-item network environments. -/
def parrot (args : Args) (parrots guests : List Emoji)
    (current_emoji : List String) (worlds : List ItemWorld)
    (approved : Bool) : List Event × RunOutcome :=
  let ev1 := [Event.fetchParrotList] ++
    (if args.include_guests then [Event.fetchGuestsList] else [])
  let gl := if args.include_guests then guests else []
  let ev2 := ev1 ++ [Event.fetchInstalled]
  if args.list_existing then
    (ev2 ++ [Event.print "Existing Parrots:"] ++
      current_emoji.map (fun e => Event.print (":" ++ e ++ ":")) ++
      [Event.exitZero], .exited)
  else
    let ev3 := ev2 ++ [Event.print (if args.list_available then
      "Available Parrots:" else "Starting Parroting...")]
    match get_emoji_list args.list_available current_emoji parrots false with
    | none => (ev3, .crashed "KeyError")
    | some (_, ps, pout) =>
      match get_emoji_list args.list_available current_emoji gl true with
      | none => (ev3 ++ pout.map Event.print, .crashed "KeyError")
      | some (_, gs, gout) =>
        let to_add := ps ++ gs
        let ev4 := ev3 ++ pout.map Event.print ++ gout.map Event.print
        if args.list_available then (ev4 ++ [Event.exitZero], .exited)
        else if to_add.isEmpty then
          (ev4 ++ [Event.print "No new parrots to add!", Event.exitZero],
            .exited)
        else
          let ev5 := ev4 ++
            [Event.print ("Found " ++ toString to_add.length ++
              " new parrots to add!")] ++
            to_add.map (fun p => Event.print (":" ++ p.slug.getD "" ++ ":"))
          if args.list_new then (ev5 ++ [Event.exitZero], .exited)
          else
            let ev6 := ev5 ++ (if args.quiet then [] else [Event.promptYesNo])
            if !(args.quiet || approved) then
              (ev6 ++ [Event.exitZero], .exited)
            else
              match add_parrots (to_add.zip worlds) with
              | .error m => (ev6, .crashed m)
              | .ok (added, out, errs) =>
                (ev6 ++
                  (to_add.zip worlds).map
                    (fun pw => Event.uploadItem (pw.1.slug.getD "")) ++
                  out.map Event.print ++ errs.map Event.printErr,
                  .finished added)

/-! ### Concrete fixtures used by witnesses and counterexamples -/

/-- The spec's example standard-resolution entry. -/
def exGif : Emoji := { name := some "parrot", gif := some "parrot.gif" }

/-- The spec's example high-resolution entry. -/
def exHd : Emoji :=
  { name := some "partyparrot", hd := some "hd/partyparrot.png" }

/-- A guest entry fixture. -/
def exGuest : Emoji :=
  { name := some "guestparrot", gif := some "guestparrot.gif" }

/-- An entry with neither image reference. -/
def noRefEntry : Emoji := { name := some "x" }

/-- A fully enriched standard entry, ready for upload. -/
def readyParrot : Emoji :=
  { name := some "parrot", gif := some "parrot.gif", is_guest := some false,
    use_hd := some false, slug := some "parrot" }

/-- A fully enriched hd entry, ready for upload. -/
def readyParrot2 : Emoji :=
  { name := some "partyparrot", hd := some "hd/partyparrot.png",
    is_guest := some false, use_hd := some true,
    slug := some "partyparrot" }

/-- A network environment where everything succeeds. -/
def okWorld : ItemWorld :=
  { img_status_ok := true, page_status_ok := true,
    upload := { status_ok := true, ok := true, error := none } }

/-- A network environment where the image download returns non-2xx. -/
def badImgWorld : ItemWorld :=
  { img_status_ok := false, page_status_ok := true,
    upload := { status_ok := true, ok := true, error := none } }

/-- A network environment where the service rejects the upload with a
`name_taken` error. -/
def rejectWorld : ItemWorld :=
  { img_status_ok := true, page_status_ok := true,
    upload := { status_ok := true, ok := false, error := some "name_taken" } }

/-- A network environment returning 2xx with `ok = false` and no `error`
field. -/
def oddWorld : ItemWorld :=
  { img_status_ok := true, page_status_ok := true,
    upload := { status_ok := true, ok := false, error := none } }

/-! ### Further helper lemmas -/

/-- Enrichment only adds fields: `name`, `hd` and `gif` are preserved and
`is_guest` is set. -/
theorem enrich_emoji_fields (g : Bool) (e e' : Emoji)
    (h : enrich_emoji g e = some e') :
    e'.name = e.name ∧ e'.hd = e.hd ∧ e'.gif = e.gif ∧
      e'.is_guest = some g := by
  cases hhd : e.hd with
  | some h1 =>
    cases hsp : (reSplitSlashDot h1)[1]? with
    | some s =>
      simp only [enrich_emoji, hhd, hsp] at h
      injection h with h
      subst h
      exact ⟨rfl, rfl, rfl, rfl⟩
    | none => simp only [enrich_emoji, hhd, hsp] at h; cases h
  | none =>
    cases hgf : e.gif with
    | some gf =>
      cases hsp : (reSplitDot gf)[0]? with
      | some s =>
        simp only [enrich_emoji, hhd, hgf, hsp] at h
        injection h with h
        subst h
        exact ⟨rfl, rfl, rfl, rfl⟩
      | none => simp only [enrich_emoji, hhd, hgf, hsp] at h; cases h
    | none =>
      simp only [enrich_emoji, hhd, hgf] at h
      injection h with h
      subst h
      exact ⟨rfl, rfl, rfl, rfl⟩

/-- When every entry carries a slug, message construction succeeds. -/
theorem slugsOf_ok (l : List Emoji)
    (h : ∀ p ∈ l, p.slug.isSome = true) : ∃ ss, slugsOf l = .ok ss := by
  induction l with
  | nil => exact ⟨[], rfl⟩
  | cons p rest ih =>
    obtain ⟨s, hs⟩ :=
      Option.isSome_iff_exists.1 (h p (List.mem_cons_self p rest))
    obtain ⟨ss, hss⟩ := ih (fun q hq => h q (List.mem_cons_of_mem p hq))
    refine ⟨s :: ss, ?_⟩
    unfold slugsOf
    rw [hs, hss]

/-! ### Claim theorems -/

/-- C1: on processable catalogs, `get_parrots_to_add` (the diff,
`computeMissing`) returns exactly the catalog entries whose slug is not in
the installed set, preserving catalog order with all standard entries
before all guest entries; no entry whose slug is installed appears in the
result, and the computation is deterministic (two runs on the same inputs
agree). -/
theorem get_parrots_to_add_missing (current_emoji : List String)
    (parrots guests : List Emoji)
    (hp : ∀ e ∈ parrots, goodEntry e = true)
    (hg : ∀ e ∈ guests, goodEntry e = true) :
    get_parrots_to_add false current_emoji parrots (some guests) =
      some (selectMissing false current_emoji parrots ++
            selectMissing true current_emoji guests) ∧
    (∀ e ∈ selectMissing false current_emoji parrots ++
          selectMissing true current_emoji guests,
       ∀ s, e.slug = some s → s ∉ current_emoji) ∧
    get_parrots_to_add false current_emoji parrots (some guests) =
      get_parrots_to_add false current_emoji parrots (some guests) := by
  refine ⟨?_, ?_, rfl⟩
  · simp only [get_parrots_to_add,
      get_emoji_list_diff current_emoji false parrots hp,
      get_emoji_list_diff current_emoji true guests hg]
  · intro e he s hs
    unfold selectMissing at he
    rcases List.mem_append.1 he with h1 | h1 <;>
    · have hk := (List.mem_filter.1 h1).2
      rw [keepMissing_some current_emoji e s hs] at hk
      simpa using hk

/-- Witness for C1 at the spec's example inputs plus one guest. -/
theorem get_parrots_to_add_missing_witness :
    get_parrots_to_add false ["parrot"] [exGif, exHd] (some [exGuest]) =
      some (selectMissing false ["parrot"] [exGif, exHd] ++
            selectMissing true ["parrot"] [exGuest]) ∧
    (∀ e ∈ selectMissing false ["parrot"] [exGif, exHd] ++
          selectMissing true ["parrot"] [exGuest],
       ∀ s, e.slug = some s → s ∉ ["parrot"]) ∧
    get_parrots_to_add false ["parrot"] [exGif, exHd] (some [exGuest]) =
      get_parrots_to_add false ["parrot"] [exGif, exHd] (some [exGuest]) :=
  get_parrots_to_add_missing ["parrot"] [exGif, exHd] [exGuest]
    (by decide) (by decide)

/-- C2: an entry carrying an `hd` reference always uses the
high-resolution variant — its `use_hd`/`slug` result is a function of the
`hd` reference alone, whatever `gif` holds — and on the spec's example
catalog with `installed = {parrot}` the missing list is exactly the
`partyparrot` entry with `use_hd = true` and slug stripped from the `hd`
reference. -/
theorem hd_preferred_and_example :
    (∀ (g : Bool) (nm : Option String) (h : String)
       (gf : Option String) (igf uh : Option Bool) (sl : Option String),
       (enrich_emoji g ⟨nm, some h, gf, igf, uh, sl⟩).map
           (fun e => (e.use_hd, e.slug)) =
         ((reSplitSlashDot h)[1]?).map
           (fun s => (some true, some s))) ∧
    get_parrots_to_add false ["parrot"] [exGif, exHd] none =
      some [{ name := some "partyparrot", hd := some "hd/partyparrot.png",
              is_guest := some false, use_hd := some true,
              slug := some "partyparrot" }] := by
  constructor
  · intro g nm h gf igf uh sl
    cases hsp : (reSplitSlashDot h)[1]? with
    | some s => simp [enrich_emoji, hsp]
    | none => simp [enrich_emoji, hsp]
  · decide

/-- Witness for C2: the preference conjunct applied to a concrete entry
carrying both references. -/
theorem hd_preferred_and_example_witness :
    (enrich_emoji false
        ⟨some "partyparrot", some "hd/partyparrot.png", some "parrot.gif",
         none, none, none⟩).map (fun e => (e.use_hd, e.slug)) =
      ((reSplitSlashDot "hd/partyparrot.png")[1]?).map
        (fun s => (some true, some s)) :=
  hd_preferred_and_example.1 false (some "partyparrot")
    "hd/partyparrot.png" (some "parrot.gif") none none none

/-- C6: the code does NOT skip-or-report an entry with neither image
reference — evaluating the catalog loop on such an entry raises a
`KeyError` at the `emoji['slug']` lookup (modelled as `none`), in both
diff mode and `list_available` mode, so the run crashes instead of
completing. -/
theorem no_reference_entry_crashes :
    get_emoji_list false [] [noRefEntry] false = none ∧
    get_emoji_list true [] [noRefEntry] false = none := by decide

/-- C8 counterexample: the diff does not leave catalog entries unchanged —
on the concrete entry `exGif` the loop returns the catalog with the entry
mutated (fields `is_guest`, `use_hd`, `slug` added in place), which
differs from the input entry. -/
theorem diff_mutates_catalog_cex :
    get_emoji_list false [] [exGif] false =
      some ([{ name := some "parrot", gif := some "parrot.gif",
               is_guest := some false, use_hd := some false,
               slug := some "parrot" }],
            [{ name := some "parrot", gif := some "parrot.gif",
               is_guest := some false, use_hd := some false,
               slug := some "parrot" }], []) ∧
    ({ name := some "parrot", gif := some "parrot.gif",
       is_guest := some false, use_hd := some false,
       slug := some "parrot" } : Emoji) ≠ exGif := by decide

/-- C8 amended: membership checks leave the installed set unchanged
(the diff only reads it), but each catalog entry is mutated in place:
the loop returns the catalog with every entry enriched, where enrichment
preserves `name`, `hd` and `gif` and sets `is_guest` (and, for entries
with a reference, `use_hd` and `slug`). -/
theorem diff_readonly_set_but_mutates_entries (current_emoji : List String)
    (g : Bool) (l : List Emoji) (h : ∀ e ∈ l, goodEntry e = true) :
    get_emoji_list false current_emoji l g =
      some (l.filterMap (enrich_emoji g),
            selectMissing g current_emoji l, []) ∧
    (∀ e ∈ l, ∀ e', enrich_emoji g e = some e' →
       e'.name = e.name ∧ e'.hd = e.hd ∧ e'.gif = e.gif ∧
         e'.is_guest = some g) := by
  refine ⟨get_emoji_list_diff current_emoji g l h, ?_⟩
  intro e _ e' he'
  exact enrich_emoji_fields g e e' he'

/-- Witness for the amended C8 at a concrete catalog. -/
theorem diff_readonly_set_but_mutates_entries_witness :
    get_emoji_list false ["parrot"] [exGif, exHd] false =
      some ([exGif, exHd].filterMap (enrich_emoji false),
            selectMissing false ["parrot"] [exGif, exHd], []) ∧
    (∀ e ∈ [exGif, exHd], ∀ e', enrich_emoji false e = some e' →
       e'.name = e.name ∧ e'.hd = e.hd ∧ e'.gif = e.gif ∧
         e'.is_guest = some false) :=
  diff_readonly_set_but_mutates_entries ["parrot"] false [exGif, exHd]
    (by decide)

/-- C3 counterexample: a bad image fetch for the FIRST entry is not
logged-and-skipped — the uncaught `HTTPError` aborts the whole batch, so
the second (perfectly fine) entry is never attempted and nothing is
logged. -/
theorem add_parrots_img_failure_aborts_cex :
    add_parrots [(readyParrot, badImgWorld), (readyParrot2, okWorld)] =
      .error "HTTPError: image fetch" := rfl

/-- C3 amended: only a service-level rejection (2xx response with
`ok = false` and an `error` field, e.g. a duplicate-name race) is treated
as a per-item failure: it is logged to the error stream with the offending
slug and the server-reported reason and the batch continues with the
remaining entries.  A transport-level failure (non-2xx image fetch, emoji
page fetch or upload response) raises and aborts the batch. -/
theorem add_parrots_rejection_continues (p : Emoji) (w : ItemWorld)
    (rest : List (Emoji × ItemWorld)) (u : Bool) (s err : String)
    (added : List Emoji) (out errs : List String)
    (hu : p.use_hd = some u)
    (hfile : (if u then p.hd else p.gif).isSome = true)
    (hig : p.is_guest.isSome = true)
    (hslug : p.slug = some s)
    (himg : w.img_status_ok = true) (hpg : w.page_status_ok = true)
    (hus : w.upload.status_ok = true) (hok : w.upload.ok = false)
    (herr : w.upload.error = some err)
    (hrest : add_parrots rest = .ok (added, out, errs)) :
    add_parrot w p = .ok (some err) ∧
    add_parrots ((p, w) :: rest) =
      .ok (added, out,
        ("+ Error adding " ++ s ++ ", " ++ err) :: errs) := by
  obtain ⟨f, hf⟩ := Option.isSome_iff_exists.1 hfile
  obtain ⟨b, hb⟩ := Option.isSome_iff_exists.1 hig
  have h1 : add_parrot w p = .ok (some err) := by
    simp only [add_parrot, hu, hf, hb, himg, hpg, hus, hok, herr]
    rfl
  refine ⟨h1, ?_⟩
  simp only [add_parrots, h1, hslug, hrest]

/-- Witness for the amended C3: a `name_taken` rejection on the first
entry is logged and the second entry is still added. -/
theorem add_parrots_rejection_continues_witness :
    add_parrot rejectWorld readyParrot = .ok (some "name_taken") ∧
    add_parrots [(readyParrot, rejectWorld), (readyParrot2, okWorld)] =
      .ok ([readyParrot2],
        ["+ Added :" ++ "partyparrot" ++ ":"],
        ("+ Error adding " ++ "parrot" ++ ", " ++ "name_taken") :: []) :=
  add_parrots_rejection_continues readyParrot rejectWorld
    [(readyParrot2, okWorld)] false "parrot" "name_taken"
    [readyParrot2] ["+ Added :" ++ "partyparrot" ++ ":"] []
    (by decide) (by decide) (by decide) (by decide) (by decide) (by decide)
    (by decide) (by decide) (by decide) rfl

/-- C10: a per-item upload result counts as an error only when the
response has `ok = false` AND an `error` field; with `ok = false` but no
`error` field, `add_parrot` returns success (`none`), so `add_parrots`
prints the entry as added and counts it among the successes. -/
theorem add_parrot_no_error_field_success (p : Emoji) (w : ItemWorld)
    (rest : List (Emoji × ItemWorld)) (u : Bool) (s : String)
    (added : List Emoji) (out errs : List String)
    (hu : p.use_hd = some u)
    (hfile : (if u then p.hd else p.gif).isSome = true)
    (hig : p.is_guest.isSome = true)
    (hslug : p.slug = some s)
    (himg : w.img_status_ok = true) (hpg : w.page_status_ok = true)
    (hus : w.upload.status_ok = true) (hok : w.upload.ok = false)
    (herr : w.upload.error = none)
    (hrest : add_parrots rest = .ok (added, out, errs)) :
    add_parrot w p = .ok none ∧
    add_parrots ((p, w) :: rest) =
      .ok (p :: added, ("+ Added :" ++ s ++ ":") :: out, errs) := by
  obtain ⟨f, hf⟩ := Option.isSome_iff_exists.1 hfile
  obtain ⟨b, hb⟩ := Option.isSome_iff_exists.1 hig
  have h1 : add_parrot w p = .ok none := by
    simp only [add_parrot, hu, hf, hb, himg, hpg, hus, hok, herr]
    rfl
  refine ⟨h1, ?_⟩
  simp only [add_parrots, h1, hslug, hrest]

/-- Witness for C10: an `ok = false` response without an `error` field is
reported as a success. -/
theorem add_parrot_no_error_field_success_witness :
    add_parrot oddWorld readyParrot = .ok none ∧
    add_parrots [(readyParrot, oddWorld)] =
      .ok ([readyParrot], ("+ Added :" ++ "parrot" ++ ":") :: [], []) :=
  add_parrot_no_error_field_success readyParrot oddWorld [] false "parrot"
    [] [] []
    (by decide) (by decide) (by decide) (by decide) (by decide) (by decide)
    (by decide) (by decide) (by decide) rfl

/-- C4: a cached session is only reused for the team it was created
against — with `refresh = false` and a cache entry for a different team,
`_load_cookie_jar` discards the cached cookies and performs a fresh
authentication, filling the jar with the new cookies. -/
theorem cached_session_team_mismatch_refreshes (team cachedTeam : String)
    (cookies fresh : List Cookie) (now mod_time : Nat)
    (h : cachedTeam ≠ team) :
    load_cookie_jar false team (some (cachedTeam, cookies)) now mod_time
      fresh = (true, fresh) := by
  have hb : (cachedTeam != team) = true := bne_iff_ne.2 h
  simp [load_cookie_jar, hb]

/-- Witness for C4: an unexpired, nonempty session cached for team
`alpha` forces fresh authentication when the run targets team `beta`. -/
theorem cached_session_team_mismatch_refreshes_witness :
    load_cookie_jar false "beta"
      (some ("alpha", [{ expires := some 9999 }])) 10 10
      [{ expires := none }] = (true, [{ expires := none }]) :=
  cached_session_team_mismatch_refreshes "beta" "alpha"
    [{ expires := some 9999 }] [{ expires := none }] 10 10 (by decide)

/-- C7 counterexample: a transport-level failure of the notification post
(non-2xx response, `raise_for_status()`) is not logged-and-ignored — the
uncaught exception aborts `report`, so the exit status is not 0. -/
theorem report_transport_failure_aborts_cex :
    report (some "general") [readyParrot]
      { status_ok := false, ok := true, error := none } =
      .error "HTTPError: chat.postMessage" := rfl

/-- C7 amended: a 2xx notification response with `ok = false` and an
`error` field is logged to the error stream and leaves the run's exit
status unchanged (a normal return, exit 0); a non-2xx response raises and
aborts instead. -/
theorem report_api_failure_logged_nonfatal (ch : String)
    (added : List Emoji) (resp : SlackResponse) (err : String)
    (hslugs : ∀ p ∈ added, p.slug.isSome = true)
    (hst : resp.status_ok = true) (hok : resp.ok = false)
    (herr : resp.error = some err) :
    report (some ch) added resp =
      .ok (["Successfully added " ++ toString added.length ++
             " new parrots!"],
           ["ERROR: Unable to send Slack message: " ++ err]) := by
  obtain ⟨ss, hss⟩ := slugsOf_ok added hslugs
  simp [report, hss, hst, hok, herr]

/-- Witness for the amended C7: a `channel_not_found` rejection is logged
and `report` returns normally. -/
theorem report_api_failure_logged_nonfatal_witness :
    report (some "general") [readyParrot]
      { status_ok := true, ok := false,
        error := some "channel_not_found" } =
      .ok (["Successfully added " ++ toString (1 : Nat) ++ " new parrots!"],
           ["ERROR: Unable to send Slack message: " ++
             "channel_not_found"]) :=
  report_api_failure_logged_nonfatal "general" [readyParrot]
    { status_ok := true, ok := false, error := some "channel_not_found" }
    "channel_not_found" (by decide) rfl rfl rfl

/-- Unfolding of the prompt loop on one reply. -/
theorem yes_or_no_cons (r : String) (rest : List String) :
    yes_or_no (r :: rest) =
      match (pyStrip (pyLower r)).data with
      | [] => .crash
      | c :: _ =>
        if c = 'y' then .answer true
        else if c = 'n' then .answer false
        else yes_or_no rest := rfl

/-- C9: `yes_or_no` classifies a reply by the first character of its
lowercased, stripped form only — `y` answers true, `n` answers false, any
other first character re-prompts (recursing on the remaining replies) —
and an empty stripped reply makes `reply[0]` raise `IndexError`
(the `crash` outcome): the function is not total on empty input. -/
theorem yes_or_no_first_char_only (r : String) (rest : List String) :
    ((pyStrip (pyLower r)).data.head? = some 'y' →
       yes_or_no (r :: rest) = .answer true) ∧
    ((pyStrip (pyLower r)).data.head? = some 'n' →
       yes_or_no (r :: rest) = .answer false) ∧
    (∀ c, (pyStrip (pyLower r)).data.head? = some c → c ≠ 'y' → c ≠ 'n' →
       yes_or_no (r :: rest) = yes_or_no rest) ∧
    ((pyStrip (pyLower r)).data.head? = none →
       yes_or_no (r :: rest) = .crash) := by
  rw [yes_or_no_cons]
  cases hd : (pyStrip (pyLower r)).data with
  | nil =>
    refine ⟨?_, ?_, ?_, ?_⟩
    · intro h; cases h
    · intro h; cases h
    · intro c h; cases h
    · intro h; rfl
  | cons c cs =>
    refine ⟨?_, ?_, ?_, ?_⟩
    · intro h
      rw [List.head?_cons] at h
      injection h with h
      subst h
      rfl
    · intro h
      rw [List.head?_cons] at h
      injection h with h
      subst h
      rfl
    · intro c' h hne1 hne2
      rw [List.head?_cons] at h
      injection h with h
      subst h
      simp [hne1, hne2]
    · intro h
      rw [List.head?_cons] at h
      cases h

/-- Witness for C9 on concrete replies: affirmative, negative,
re-prompt and empty-reply crash. -/
theorem yes_or_no_first_char_only_witness :
    yes_or_no [" YES "] = .answer true ∧
    yes_or_no ["No way"] = .answer false ∧
    yes_or_no ["maybe", "y"] = yes_or_no ["y"] ∧
    yes_or_no [""] = .crash :=
  ⟨(yes_or_no_first_char_only " YES " []).1 (by decide),
   (yes_or_no_first_char_only "No way" []).2.1 (by decide),
   (yes_or_no_first_char_only "maybe" ["y"]).2.2.1 'm' (by decide)
     (by decide) (by decide),
   (yes_or_no_first_char_only "" []).2.2.2 (by decide)⟩

/-- The run's CLI flags with only `list_available` set. -/
def laArgs : Args :=
  { include_guests := false, list_existing := false, list_available := true,
    list_new := false, quiet := false }

/-- C5 counterexample: with `--list_available`, the run still performs the
installed-list fetch (`get_current_emoji_list`) before listing and
exiting — the fetch event is in the trace. -/
theorem list_available_fetches_installed_cex :
    (parrot laArgs [exGif, exHd] [] ["parrot"] [] true).2 =
      RunOutcome.exited ∧
    Event.fetchInstalled ∈
      (parrot laArgs [exGif, exHd] [] ["parrot"] [] true).1 := by
  decide

/-- The whole trace of a `list_available` run on processable catalogs. -/
theorem parrot_la_eq (args : Args) (parrots guests : List Emoji)
    (current_emoji : List String) (worlds : List ItemWorld)
    (approved : Bool)
    (hla : args.list_available = true) (hle : args.list_existing = false)
    (hp : ∀ e ∈ parrots, goodEntry e = true)
    (hg : ∀ e ∈ (if args.include_guests then guests else []),
       goodEntry e = true) :
    parrot args parrots guests current_emoji worlds approved =
      ([Event.fetchParrotList] ++
        (if args.include_guests then [Event.fetchGuestsList] else []) ++
        [Event.fetchInstalled] ++ [Event.print "Available Parrots:"] ++
        (availableLines false parrots).map Event.print ++
        (availableLines true
          (if args.include_guests then guests else [])).map Event.print ++
        [Event.exitZero], .exited) := by
  have h1 := get_emoji_list_la current_emoji false parrots hp
  have h2 := get_emoji_list_la current_emoji true
    (if args.include_guests then guests else []) hg
  simp only [parrot, hla, hle, h1, h2, if_true, Bool.false_eq_true,
    if_false, List.append_assoc]

/-- C5 amended: with `--list_available` set, the run prints every catalog
slug and exits normally without prompting and without attempting any
upload — but the installed-list fetch DOES occur first (it is not
skipped). -/
theorem parrot_list_available_behavior (args : Args)
    (parrots guests : List Emoji) (current_emoji : List String)
    (worlds : List ItemWorld) (approved : Bool)
    (hla : args.list_available = true) (hle : args.list_existing = false)
    (hp : ∀ e ∈ parrots, goodEntry e = true)
    (hgall : ∀ e ∈ guests, goodEntry e = true) :
    (parrot args parrots guests current_emoji worlds approved).2 =
      RunOutcome.exited ∧
    Event.fetchInstalled ∈
      (parrot args parrots guests current_emoji worlds approved).1 ∧
    (∀ s, Event.uploadItem s ∉
      (parrot args parrots guests current_emoji worlds approved).1) ∧
    Event.promptYesNo ∉
      (parrot args parrots guests current_emoji worlds approved).1 ∧
    (∀ ln ∈ availableLines false parrots, Event.print ln ∈
      (parrot args parrots guests current_emoji worlds approved).1) := by
  have hg' : ∀ e ∈ (if args.include_guests then guests else []),
      goodEntry e = true := by
    cases h : args.include_guests
    · simp
    · simpa using hgall
  rw [parrot_la_eq args parrots guests current_emoji worlds approved
    hla hle hp hg']
  refine ⟨rfl, ?_, ?_, ?_, ?_⟩
  · have h0 : Event.fetchInstalled ∈ [Event.fetchInstalled] :=
      List.mem_singleton_self _
    simp only [List.mem_append]
    tauto
  · intro s
    cases hig : args.include_guests <;> simp
  · cases hig : args.include_guests <;> simp
  · intro ln hln
    have h1 : Event.print ln ∈ (availableLines false parrots).map
        Event.print := List.mem_map_of_mem _ hln
    simp only [List.mem_append]
    tauto

/-- Witness for the amended C5 at concrete inputs. -/
theorem parrot_list_available_behavior_witness :
    (parrot laArgs [exGif, exHd] [exGuest] ["parrot"] [] true).2 =
      RunOutcome.exited ∧
    Event.fetchInstalled ∈
      (parrot laArgs [exGif, exHd] [exGuest] ["parrot"] [] true).1 ∧
    (∀ s, Event.uploadItem s ∉
      (parrot laArgs [exGif, exHd] [exGuest] ["parrot"] [] true).1) ∧
    Event.promptYesNo ∉
      (parrot laArgs [exGif, exHd] [exGuest] ["parrot"] [] true).1 ∧
    (∀ ln ∈ availableLines false [exGif, exHd], Event.print ln ∈
      (parrot laArgs [exGif, exHd] [exGuest] ["parrot"] [] true).1) :=
  parrot_list_available_behavior laArgs [exGif, exHd] [exGuest] ["parrot"]
    [] true rfl rfl (by decide) (by decide)

end Parroter
